import Mathlib

/-!
Shallow embedding of the bSpheres Blender add-on (`src/__init__.py`) and
verification of its specification claims.

The add-on consists of three classes:
* `MESH_OT_PrimitiveBSphereAdd` — the Base Creator operator,
* `OBJECT_OT_ApplyBSphereModifiers` — the Finalizer operator,
* `VIEW3D_PT_BSpheresPanel` — the contextual panel.

Host primitives (Blender's `bpy.ops` operators, `object_data_add`,
modifier application, voxel remesh) are external black boxes; they are
modelled per the contracts in spec §6, with bake/remesh outcomes supplied
as oracles so that host runtime failures are explicit `Except` values.
Floats (vertex coordinates, voxel sizes) carry no arithmetic in this core,
only assignment and comparison, so they are embedded as rationals.
-/

namespace BSpheres

/-- Per-vertex state: local coordinate plus the selection flag and the two
skin attributes (`isRoot`, `isLoose`) the spec calls Point Attributes. -/
structure Vert where
  co : ℚ × ℚ × ℚ
  selected : Bool
  isRoot : Bool
  isLoose : Bool
deriving DecidableEq

/-- Point/edge/face graph of a mesh (the geometry part of `bpy.types.Mesh`). -/
structure Geometry where
  verts : List Vert
  edges : List (Nat × Nat)
  faces : List (List Nat)
deriving DecidableEq

/-- A `bpy.types.Mesh`: geometry plus the `remesh_voxel_size` setting that
the Finalizer writes before invoking the voxel remesh. -/
structure Mesh where
  geo : Geometry
  remesh_voxel_size : ℚ
deriving DecidableEq

/-- Typed parameters of the three modifier kinds the add-on creates.
`mirror` holds the three `use_axis` booleans, `skin` the three symmetry
booleans, `subsurf` the interactive and render subdivision levels. -/
inductive ModData where
  | mirror (use_axis_x use_axis_y use_axis_z : Bool)
  | skin (use_x_symmetry use_y_symmetry use_z_symmetry : Bool)
  | subsurf (levels render_levels : Nat)
deriving DecidableEq

/-- A named stage on the modifier stack (`bpy.types.Modifier`). -/
structure Modifier where
  name : String
  data : ModData
deriving DecidableEq

/-- A scene object: type string (`'MESH'` for meshes), its mesh data and
its ordered modifier stack. -/
structure Object where
  name : String
  otype : String
  data : Mesh
  modifiers : List Modifier
deriving DecidableEq

/-- The slice of `bpy.context` this add-on reads and writes: the active
object, the interaction mode string, the type of `context.space_data`
and the viewport's x-ray shading flag. -/
structure Context where
  object : Option Object
  mode : String
  space_type : String
  show_xray : Bool
deriving DecidableEq

/-- Operator return status (`{'FINISHED'}` or `{'CANCELLED'}`). -/
inductive OpResult where
  | FINISHED
  | CANCELLED
deriving DecidableEq

/-- A message passed to `self.report({level}, msg)`. -/
structure FinReport where
  level : String
  msg : String
deriving DecidableEq

/-- Lookup `obj.modifiers.get(name)`: first modifier with the given name. -/
def modGet (mods : List Modifier) (n : String) : Option Modifier :=
  mods.find? (fun m => m.name == n)

/-- Host primitive modelled per spec §6: `bpy.ops.mesh.select_all(action='SELECT')`
selects every vertex of the edited mesh. -/
def select_all_select (g : Geometry) : Geometry :=
  { g with verts := g.verts.map (fun v => { v with selected := true }) }

/-- Host primitive modelled per spec §6: `bpy.ops.object.skin_root_mark()`
marks every selected vertex as a skin root. -/
def skin_root_mark (g : Geometry) : Geometry :=
  { g with verts := g.verts.map (fun v => if v.selected then { v with isRoot := true } else v) }

/-- The mesh built in step 1 of `MESH_OT_PrimitiveBSphereAdd.execute`:
a bmesh with a single vertex at (0,0,0), written into a new mesh datablock
named "bSphere" (the host's default `remesh_voxel_size` for a new mesh is 0.1). -/
def bSphereBaseMesh : Mesh :=
  { geo := { verts := [{ co := (0, 0, 0), selected := false, isRoot := false, isLoose := false }],
             edges := [], faces := [] },
    remesh_voxel_size := 1/10 }

/-- The modifier stack installed by steps 3–5 of the Base Creator:
Mirror with `use_axis = (True, False, False)`, Skin with all symmetry
flags `False`, Subdivision with `levels = 2` and `render_levels = 2`. -/
def bSphereModifierStack : List Modifier :=
  [ { name := "Mirror", data := .mirror true false false },
    { name := "Skin", data := .skin false false false },
    { name := "Subdivision", data := .subsurf 2 2 } ]

/-- Embedding of `MESH_OT_PrimitiveBSphereAdd.execute` (src/__init__.py:88–134):
build the one-vertex mesh, add it to the scene as the active object
(`object_data_add`), append the Mirror/Skin/Subdivision modifiers, enter
edit mode, select all vertices, mark the selection as skin root, and turn
the viewport's x-ray shading on when the space is a 3D view. -/
def primitive_bsphere_add_execute (ctx : Context) : Context × OpResult :=
  let mesh := bSphereBaseMesh
  let obj0 : Object := { name := "bSphere", otype := "MESH", data := mesh, modifiers := [] }
  let obj1 : Object := { obj0 with modifiers := bSphereModifierStack }
  let obj2 : Object :=
    { obj1 with data := { obj1.data with geo := skin_root_mark (select_all_select obj1.data.geo) } }
  let ctx1 : Context := { ctx with object := some obj2, mode := "EDIT_MESH" }
  let ctx2 : Context := if ctx1.space_type == "VIEW_3D" then { ctx1 with show_xray := true } else ctx1
  (ctx2, OpResult.FINISHED)

/-- Modelled from the spec: the availability check of `CreateBaseMesh`.
`MESH_OT_PrimitiveBSphereAdd` defines no `poll` of its own in src/; it
inherits the one of the host mixin `bpy_extras.object_utils.AddObjectHelper`,
which the spec (§6, §7a) describes as accepting exactly contexts in
object-level mode (`context.mode == 'OBJECT'`). -/
def primitive_bsphere_add_poll (ctx : Context) : Bool :=
  ctx.mode == "OBJECT"

/-! ### Finalizer (`OBJECT_OT_ApplyBSphereModifiers`) -/

/-- Outcomes of the two fallible host primitives consumed by the Finalizer
(spec §6, design note on result types): `bake` is
`bpy.ops.object.modifier_apply(modifier=...)` evaluated on the current
geometry, and `voxel_remesh` is `bpy.ops.object.voxel_remesh()` evaluated on
the mesh (geometry together with its `remesh_voxel_size`). A `RuntimeError`
raised by the host is an `Except.error` carrying the error message. -/
structure Oracles where
  bake : Modifier → Geometry → Except String Geometry
  voxel_remesh : Mesh → Except String Geometry
deriving Inhabited

/-- Object-plus-reports state threaded through the Finalizer's modifier loop. -/
structure BakeState where
  obj : Object
  reports : List FinReport
deriving DecidableEq

/-- One iteration of the loop in `OBJECT_OT_ApplyBSphereModifiers.execute`
(src/__init__.py:58–64): look the stage up by name; if absent, do nothing;
if present, apply it — on success the modifier is baked into the mesh and
removed from the stack, on a host `RuntimeError` a WARNING is reported and
the state is otherwise untouched. -/
def applyStage (oc : Oracles) (s : BakeState) (mod_name : String) : BakeState :=
  match modGet s.obj.modifiers mod_name with
  | none => s
  | some m =>
    match oc.bake m s.obj.data.geo with
    | .ok g =>
        { s with obj := { s.obj with
            data := { s.obj.data with geo := g },
            modifiers := s.obj.modifiers.eraseP (fun m2 => m2.name == m.name) } }
    | .error _ =>
        { s with reports := s.reports ++ [⟨"WARNING", "Could not apply modifier: " ++ m.name⟩] }

/-- The fixed list `modifiers_to_apply = ["Mirror", "Skin", "Subdivision"]`. -/
def modifiers_to_apply : List String := ["Mirror", "Skin", "Subdivision"]

/-- The Finalizer's stage loop: fold `applyStage` over the fixed name list. -/
def applyStagesLoop (oc : Oracles) (s : BakeState) : BakeState :=
  modifiers_to_apply.foldl (applyStage oc) s

/-- Default of the `voxel_size` property of `OBJECT_OT_ApplyBSphereModifiers`. -/
def voxel_size_default : ℚ := 5/100

/-- Clamp applied by the host to the `voxel_size` property (min 0.001, max 1.0). -/
def voxel_size_clamp (v : ℚ) : ℚ := max (1/1000) (min 1 v)

/-- Embedding of `OBJECT_OT_ApplyBSphereModifiers.execute` (src/__init__.py:47–77):
read the active object (`none` marks the crash that poll makes unreachable),
force x-ray shading off when the space is a 3D view, run the stage loop over
`["Mirror", "Skin", "Subdivision"]`, write `voxel_size` into the mesh's
`remesh_voxel_size`, then invoke the voxel remesh: on success report INFO,
on a host `RuntimeError` report ERROR; either way return `FINISHED`. -/
def apply_bsphere_modifiers_execute (oc : Oracles) (voxel_size : ℚ) (ctx : Context) :
    Option (Context × List FinReport × OpResult) :=
  match ctx.object with
  | none => none
  | some obj =>
    let xray1 := if ctx.space_type == "VIEW_3D" then false else ctx.show_xray
    let s := applyStagesLoop oc { obj := obj, reports := [] }
    let mesh2 : Mesh := { s.obj.data with remesh_voxel_size := voxel_size }
    let obj2 : Object := { s.obj with data := mesh2 }
    match oc.voxel_remesh mesh2 with
    | .ok g =>
        some ({ ctx with object := some { obj2 with data := { mesh2 with geo := g } },
                         show_xray := xray1 },
              s.reports ++ [⟨"INFO", "bSphere mesh applied and remeshed."⟩],
              OpResult.FINISHED)
    | .error e =>
        some ({ ctx with object := some obj2, show_xray := xray1 },
              s.reports ++ [⟨"ERROR", "Remesh failed: " ++ e⟩],
              OpResult.FINISHED)

/-- Embedding of `OBJECT_OT_ApplyBSphereModifiers.poll` (src/__init__.py:43–45). -/
def apply_bsphere_modifiers_poll (ctx : Context) : Bool :=
  ctx.object.isSome && ctx.mode == "OBJECT"

/-! ### Contextual panel (`VIEW3D_PT_BSpheresPanel`) -/

/-- A UI element emitted by the panel's `draw`: a text label, an operator
button (with the optional `action` enum the loose mark/clear buttons set),
a property control bound to a named modifier's property (with the optional
index used for the per-axis mirror toggles), or a separator. -/
inductive Control where
  | label (text : String)
  | opButton (idname text : String) (action : Option String)
  | propCtl (modName propName : String) (index : Option Nat) (text : String)
  | separator
deriving DecidableEq

/-- The `has_bsphere_setup` flag computed in `VIEW3D_PT_BSpheresPanel.draw`
(src/__init__.py:157–161): true when a "Skin" or a "Mirror" modifier exists. -/
def has_bsphere_setup (obj : Object) : Bool :=
  (modGet obj.modifiers "Skin").isSome || (modGet obj.modifiers "Mirror").isSome

/-- Controls of the contextual-tools part of the panel for a mesh object
(src/__init__.py:156–214): rendered only when `has_bsphere_setup`; within it
the mirror row, the subdivision row and the skin column are each gated on
their own stage's presence, and the finalize button plus the shortcut info
box are rendered unconditionally. -/
def drawContextualTools (obj : Object) : List Control :=
  if has_bsphere_setup obj then
    [Control.label "Modifiers"]
    ++ (match modGet obj.modifiers "Mirror" with
        | some m =>
          [Control.label "Mirror:",
           Control.propCtl m.name "use_axis" (some 0) "X",
           Control.propCtl m.name "use_axis" (some 1) "Y",
           Control.propCtl m.name "use_axis" (some 2) "Z"]
        | none => [])
    ++ (match modGet obj.modifiers "Subdivision" with
        | some m => [Control.label "Subd Level:", Control.propCtl m.name "levels" none ""]
        | none => [])
    ++ (match modGet obj.modifiers "Skin" with
        | some _ =>
          [Control.separator,
           Control.label "Skin Data (Edit Mode):",
           Control.opButton "object.skin_loose_mark_clear" "Mark Loose" (some "MARK"),
           Control.opButton "object.skin_loose_mark_clear" "Clear Loose" (some "CLEAR"),
           Control.opButton "object.skin_root_mark" "Mark Root" none]
        | none => [])
    ++ [Control.separator,
        Control.label "Finalize:",
        Control.opButton "tcg.apply_bsphere_modifiers" "Voxel Remesh & Apply" none]
    ++ [Control.label "Shortcuts:",
        Control.label "• Extrude: E",
        Control.label "• Scale Radius: Ctrl + A",
        Control.label "• Split Segment: Ctrl + R"]
  else []

/-- Embedding of `VIEW3D_PT_BSpheresPanel.draw` (src/__init__.py:144–214).
The context is threaded through and returned so that the draw's effect on
the context is part of the function's result: the creation section is always
rendered, and the contextual tools only for an active mesh-typed object. -/
def panel_draw (ctx : Context) : Context × List Control :=
  let header : List Control :=
    [Control.label "Create Base:",
     Control.opButton "mesh.primitive_bsphere_add" "Create bSphere" none,
     Control.separator]
  match ctx.object with
  | some obj =>
    if obj.otype == "MESH" then (ctx, header ++ drawContextualTools obj) else (ctx, header)
  | none => (ctx, header)

/-! ### Concrete fixtures used by witnesses and counterexamples -/

/-- A freshly created bSphere object carrying the full three-stage stack. -/
def fullStackObject : Object :=
  { name := "bSphere", otype := "MESH", data := bSphereBaseMesh, modifiers := bSphereModifierStack }

/-- A 3D-viewport, object-mode context whose active object is `fullStackObject`. -/
def fullStackContext : Context :=
  { object := some fullStackObject, mode := "OBJECT", space_type := "VIEW_3D", show_xray := false }

/-- A mesh object carrying only the Subdivision stage (Mirror and Skin user-deleted). -/
def subdivisionOnlyObject : Object :=
  { name := "bSphere", otype := "MESH", data := bSphereBaseMesh,
    modifiers := [{ name := "Subdivision", data := .subsurf 2 2 }] }

/-- A 3D-viewport, object-mode context whose active object is `subdivisionOnlyObject`. -/
def subdivisionOnlyContext : Context :=
  { object := some subdivisionOnlyObject, mode := "OBJECT", space_type := "VIEW_3D",
    show_xray := false }

/-- Oracle where every bake succeeds unchanged and the remesh succeeds. -/
def allOkOracle : Oracles :=
  { bake := fun _ g => .ok g, voxel_remesh := fun m => .ok m.geo }

/-- Oracle where baking the Skin stage raises a host RuntimeError and the
other stages bake successfully. -/
def skinFailOracle : Oracles :=
  { bake := fun m g => if m.name == "Skin" then .error "invalid topology" else .ok g,
    voxel_remesh := fun m => .ok m.geo }

/-- Oracle where every bake succeeds but the voxel remesh raises. -/
def remeshFailOracle : Oracles :=
  { bake := fun _ g => .ok g, voxel_remesh := fun _ => .error "voxel size too small" }

/-- Oracle where every host primitive raises. -/
def allFailOracle : Oracles :=
  { bake := fun _ _ => .error "bake failed", voxel_remesh := fun _ => .error "remesh failed" }

/-! ### Helper lemmas -/

/-- A modifier found by `modifiers.get(name)` bears that name. -/
theorem modGet_name {mods : List Modifier} {n : String} {m : Modifier}
    (h : modGet mods n = some m) : m.name = n := by
  have h2 := List.find?_some h
  simpa using h2

/-- Behavior of one loop iteration when the named stage is absent: skipped. -/
theorem applyStage_absent (oc : Oracles) (s : BakeState) (n : String)
    (h : modGet s.obj.modifiers n = none) : applyStage oc s n = s := by
  unfold applyStage
  rw [h]

/-- Behavior of one loop iteration when the named stage is present and its
bake succeeds: the baked geometry replaces the mesh's and the stage is
removed from the stack. -/
theorem applyStage_bake_ok (oc : Oracles) (s : BakeState) (n : String) (m : Modifier)
    (g : Geometry) (h : modGet s.obj.modifiers n = some m)
    (hb : oc.bake m s.obj.data.geo = .ok g) :
    applyStage oc s n
      = { s with obj := { s.obj with
            data := { s.obj.data with geo := g },
            modifiers := s.obj.modifiers.eraseP (fun m2 => m2.name == m.name) } } := by
  unfold applyStage
  rw [h]
  dsimp only
  rw [hb]

/-- Behavior of one loop iteration when the named stage is present and its
bake raises a host RuntimeError: a WARNING naming the stage is appended and
the object (stack and mesh) is left untouched. -/
theorem applyStage_bake_error (oc : Oracles) (s : BakeState) (n : String) (m : Modifier)
    (e : String) (h : modGet s.obj.modifiers n = some m)
    (hb : oc.bake m s.obj.data.geo = .error e) :
    applyStage oc s n
      = { s with reports := s.reports ++ [⟨"WARNING", "Could not apply modifier: " ++ m.name⟩] } := by
  unfold applyStage
  rw [h]
  dsimp only
  rw [hb]

/-- Stage loop on a full stack with every bake succeeding: all three stages
are removed, the geometry is the composition of the three bakes in stack
order, and no report is emitted. -/
theorem applyStagesLoop_all_ok (oc : Oracles) (rs : List FinReport) (obj : Object)
    (mM mS mD : Modifier) (gM gS gD : Geometry)
    (hmods : obj.modifiers = [mM, mS, mD])
    (hnM : mM.name = "Mirror") (hnS : mS.name = "Skin") (hnD : mD.name = "Subdivision")
    (hbM : oc.bake mM obj.data.geo = .ok gM)
    (hbS : oc.bake mS gM = .ok gS)
    (hbD : oc.bake mD gS = .ok gD) :
    applyStagesLoop oc { obj := obj, reports := rs }
      = { obj := { obj with data := { obj.data with geo := gD }, modifiers := [] },
          reports := rs } := by
  simp [applyStagesLoop, modifiers_to_apply, applyStage, modGet, hmods, hnM, hnS, hnD,
        hbM, hbS, hbD]

/-! ### Claim theorems -/

/-- C1: every invocation of CreateBaseMesh yields an active object whose mesh
has exactly one point at local coordinate (0,0,0), zero edges and zero faces,
and whose modifier stack is exactly, in order, Mirror "Mirror" with axes
(X, ¬Y, ¬Z), Skin "Skin" with all symmetry flags false, and Subdivision
"Subdivision" with interactive level 2 and render level 2. -/
theorem c1_create_base_mesh (ctx : Context) :
    ((primitive_bsphere_add_execute ctx).1.object.map
        (fun o => (o.data.geo.verts.map Vert.co, o.data.geo.edges, o.data.geo.faces, o.modifiers)))
      = some ([((0 : ℚ), (0 : ℚ), (0 : ℚ))], [], [],
              [{ name := "Mirror", data := .mirror true false false },
               { name := "Skin", data := .skin false false false },
               { name := "Subdivision", data := .subsurf 2 2 }]) := by
  unfold primitive_bsphere_add_execute
  dsimp only
  split <;> rfl

/-- C6: after CreateBaseMesh completes the new object is in point-editing
mode, its points (exactly the single created one) are all selected, and the
selected point is marked as skin (topology) root. -/
theorem c6_create_edit_mode_root_selected (ctx : Context) :
    (primitive_bsphere_add_execute ctx).1.mode = "EDIT_MESH"
    ∧ ((primitive_bsphere_add_execute ctx).1.object.map
         (fun o => (o.data.geo.verts.map Vert.selected, o.data.geo.verts.map Vert.isRoot)))
        = some ([true], [true]) := by
  unfold primitive_bsphere_add_execute
  dsimp only
  constructor <;> (split <;> rfl)

/-- C7: the availability check of CreateBaseMesh accepts a context exactly
when the interaction mode is object-level mode, so every context not in
object mode is rejected pre-emptively. -/
theorem c7_create_poll_object_mode (ctx : Context) :
    primitive_bsphere_add_poll ctx = true ↔ ctx.mode = "OBJECT" := by
  simp [primitive_bsphere_add_poll]

/-- C8: evaluating the panel's draw leaves the context — in particular the
active object with its mesh, point attributes and modifier stack — unchanged,
and a second evaluation on the resulting state renders the same control set. -/
theorem c8_panel_draw_pure (ctx : Context) :
    (panel_draw ctx).1 = ctx
    ∧ (panel_draw ctx).1.object = ctx.object
    ∧ (panel_draw ((panel_draw ctx).1)).2 = (panel_draw ctx).2 := by
  have h1 : (panel_draw ctx).1 = ctx := by
    unfold panel_draw
    dsimp only
    rcases ctx.object with _ | obj
    · rfl
    · dsimp only; split <;> rfl
  exact ⟨h1, by rw [h1], by rw [h1]⟩

/-- C2 counterexample: on a mesh object whose stack holds only the
Subdivision stage (Mirror and Skin user-deleted), the Subdivision stage is
present yet its level control is not rendered — `has_bsphere_setup` is false,
so the whole contextual section is suppressed. This refutes the claim that a
stage-specific control is rendered iff that stage is present for all 8
presence combinations. -/
theorem c2_panel_counterexample :
    (modGet subdivisionOnlyObject.modifiers "Subdivision").isSome = true
    ∧ Control.propCtl "Subdivision" "levels" none "" ∉ (panel_draw subdivisionOnlyContext).2 := by
  decide

/-- C2 (amended): for every active mesh-typed object, `has_bsphere_setup` is
true iff the Skin or the Mirror stage is present; when it is true, the
mirror controls are rendered iff Mirror is present, the skin controls iff
Skin is present, the subdivision control iff Subdivision is present, and the
Finalize action is rendered; when it is false nothing stage-specific is
rendered — in particular the Subdivision control requires `has_bsphere_setup`
in addition to the presence of its own stage. -/
theorem c2_panel_rendering_amended (ctx : Context) (obj : Object)
    (hobj : ctx.object = some obj) (hmesh : obj.otype = "MESH") :
    (has_bsphere_setup obj
       = ((modGet obj.modifiers "Skin").isSome || (modGet obj.modifiers "Mirror").isSome))
    ∧ (Control.propCtl "Mirror" "use_axis" (some 0) "X" ∈ (panel_draw ctx).2
         ↔ (modGet obj.modifiers "Mirror").isSome = true)
    ∧ (Control.propCtl "Mirror" "use_axis" (some 1) "Y" ∈ (panel_draw ctx).2
         ↔ (modGet obj.modifiers "Mirror").isSome = true)
    ∧ (Control.propCtl "Mirror" "use_axis" (some 2) "Z" ∈ (panel_draw ctx).2
         ↔ (modGet obj.modifiers "Mirror").isSome = true)
    ∧ (Control.opButton "object.skin_root_mark" "Mark Root" none ∈ (panel_draw ctx).2
         ↔ (modGet obj.modifiers "Skin").isSome = true)
    ∧ (Control.opButton "object.skin_loose_mark_clear" "Mark Loose" (some "MARK")
          ∈ (panel_draw ctx).2
         ↔ (modGet obj.modifiers "Skin").isSome = true)
    ∧ (Control.opButton "object.skin_loose_mark_clear" "Clear Loose" (some "CLEAR")
          ∈ (panel_draw ctx).2
         ↔ (modGet obj.modifiers "Skin").isSome = true)
    ∧ (Control.propCtl "Subdivision" "levels" none "" ∈ (panel_draw ctx).2
         ↔ (has_bsphere_setup obj = true ∧ (modGet obj.modifiers "Subdivision").isSome = true))
    ∧ (Control.opButton "tcg.apply_bsphere_modifiers" "Voxel Remesh & Apply" none ∈ (panel_draw ctx).2
         ↔ has_bsphere_setup obj = true) := by
  rcases hM : modGet obj.modifiers "Mirror" with _ | mM <;>
    rcases hS : modGet obj.modifiers "Skin" with _ | mS <;>
      rcases hD : modGet obj.modifiers "Subdivision" with _ | mD <;>
  · try have eM := modGet_name hM
    try have eS := modGet_name hS
    try have eD := modGet_name hD
    refine ⟨?_, ?_, ?_, ?_, ?_, ?_, ?_, ?_, ?_⟩ <;>
      simp_all [panel_draw, drawContextualTools, has_bsphere_setup]

/-- C3: the Finalizer's stage loop processes exactly the names "Mirror",
"Skin", "Subdivision" in that fixed order (third conjunct); a name whose
stage is absent is skipped (second conjunct); and in a run where the Skin
bake raises while Mirror and Subdivision bake successfully, a per-stage
WARNING is recorded, processing continues, the two successful stages are
baked (Mirror before Subdivision, both on the Mirror-baked geometry) and
removed, and only the failed Skin stage remains (first conjunct). -/
theorem c3_finalizer_stage_isolation (oc : Oracles) (rs : List FinReport) (obj : Object)
    (mM mS mD : Modifier) (gM gD : Geometry) (eS : String)
    (hmods : obj.modifiers = [mM, mS, mD])
    (hnM : mM.name = "Mirror") (hnS : mS.name = "Skin") (hnD : mD.name = "Subdivision")
    (hbM : oc.bake mM obj.data.geo = .ok gM)
    (hbS : oc.bake mS gM = .error eS)
    (hbD : oc.bake mD gM = .ok gD) :
    applyStagesLoop oc { obj := obj, reports := rs }
        = { obj := { obj with data := { obj.data with geo := gD }, modifiers := [mS] },
            reports := rs ++ [⟨"WARNING", "Could not apply modifier: Skin"⟩] }
    ∧ (∀ s : BakeState, ∀ n : String, modGet s.obj.modifiers n = none → applyStage oc s n = s)
    ∧ (∀ s : BakeState, applyStagesLoop oc s
        = applyStage oc (applyStage oc (applyStage oc s "Mirror") "Skin") "Subdivision") := by
  refine ⟨?_, fun s n h => applyStage_absent oc s n h, fun s => rfl⟩
  simp [applyStagesLoop, modifiers_to_apply, applyStage, modGet, hmods, hnM, hnS, hnD,
        hbM, hbS, hbD]

/-- C4: a Finalizer run with all three named stages present and every bake
succeeding leaves no Mirror/Skin/Subdivision stage on the object, and the
voxel-remesh primitive is invoked exactly on the baked mesh whose
`remesh_voxel_size` equals v — whichever way the remesh then resolves, the
overall state shows the stack emptied and the voxel size written between
bake and remesh. Proved for every v, which covers the claim's range
[0.001, 1.0] that the host's property clamp (`voxel_size_clamp`) enforces. -/
theorem c4_finalize_success_postcondition (oc : Oracles) (ctx : Context) (obj : Object)
    (v : ℚ) (mM mS mD : Modifier) (gM gS gD : Geometry)
    (hobj : ctx.object = some obj)
    (hmods : obj.modifiers = [mM, mS, mD])
    (hnM : mM.name = "Mirror") (hnS : mS.name = "Skin") (hnD : mD.name = "Subdivision")
    (hbM : oc.bake mM obj.data.geo = .ok gM)
    (hbS : oc.bake mS gM = .ok gS)
    (hbD : oc.bake mD gS = .ok gD) :
    (∀ gR, oc.voxel_remesh { geo := gD, remesh_voxel_size := v } = .ok gR →
        apply_bsphere_modifiers_execute oc v ctx
          = some ({ ctx with
                    object := some { obj with
                                     data := { geo := gR, remesh_voxel_size := v },
                                     modifiers := [] },
                    show_xray := if ctx.space_type == "VIEW_3D" then false else ctx.show_xray },
                  [⟨"INFO", "bSphere mesh applied and remeshed."⟩], OpResult.FINISHED))
    ∧ (∀ e, oc.voxel_remesh { geo := gD, remesh_voxel_size := v } = .error e →
        apply_bsphere_modifiers_execute oc v ctx
          = some ({ ctx with
                    object := some { obj with
                                     data := { geo := gD, remesh_voxel_size := v },
                                     modifiers := [] },
                    show_xray := if ctx.space_type == "VIEW_3D" then false else ctx.show_xray },
                  [⟨"ERROR", "Remesh failed: " ++ e⟩], OpResult.FINISHED)) := by
  have hloop := applyStagesLoop_all_ok oc [] obj mM mS mD gM gS gD hmods hnM hnS hnD hbM hbS hbD
  constructor
  · intro gR hR
    simp [apply_bsphere_modifiers_execute, hobj, hloop, hR]
  · intro e hE
    simp [apply_bsphere_modifiers_execute, hobj, hloop, hE]

/-- C5: when the voxel-remesh call raises a host RuntimeError, the Finalizer
reports an ERROR-level message carrying the host's message, the mesh keeps
exactly the geometry the bake loop produced (only `remesh_voxel_size` having
been written), and the action still terminates normally with FINISHED. -/
theorem c5_remesh_failure_keeps_baked_geometry (oc : Oracles) (v : ℚ) (ctx : Context)
    (obj : Object) (e : String)
    (hobj : ctx.object = some obj)
    (hfail : oc.voxel_remesh
        { geo := (applyStagesLoop oc { obj := obj, reports := [] }).obj.data.geo,
          remesh_voxel_size := v } = .error e) :
    apply_bsphere_modifiers_execute oc v ctx
      = some ({ ctx with
                object := some { (applyStagesLoop oc { obj := obj, reports := [] }).obj with
                  data := { geo := (applyStagesLoop oc { obj := obj, reports := [] }).obj.data.geo,
                            remesh_voxel_size := v } },
                show_xray := if ctx.space_type == "VIEW_3D" then false else ctx.show_xray },
              (applyStagesLoop oc { obj := obj, reports := [] }).reports
                ++ [⟨"ERROR", "Remesh failed: " ++ e⟩],
              OpResult.FINISHED) := by
  simp [apply_bsphere_modifiers_execute, hobj, hfail]

/-- C9: every Finalizer run on an existing active object returns the
FINISHED completion status — whatever the bake and remesh oracles do, the
status component of the result is FINISHED, never CANCELLED. -/
theorem c9_finalizer_always_finished (oc : Oracles) (v : ℚ) (ctx : Context) (obj : Object)
    (hobj : ctx.object = some obj) :
    ((apply_bsphere_modifiers_execute oc v ctx).map (fun r => r.2.2))
      = some OpResult.FINISHED := by
  rcases hrem : oc.voxel_remesh
      { geo := (applyStagesLoop oc { obj := obj, reports := [] }).obj.data.geo,
        remesh_voxel_size := v } with e | g <;>
    simp [apply_bsphere_modifiers_execute, hobj, hrem]

/-- C10: every Finalizer run writes the supplied resolution v into the
mesh's `remesh_voxel_size` unconditionally, and the active object of the
resulting context still carries exactly v there after the run — in
particular when bakes or the remesh fail. -/
theorem c10_voxel_size_write_persists (oc : Oracles) (v : ℚ) (ctx : Context) (obj : Object)
    (hobj : ctx.object = some obj) :
    ((apply_bsphere_modifiers_execute oc v ctx).map
        (fun r => r.1.object.map (fun o => o.data.remesh_voxel_size)))
      = some (some v) := by
  rcases hrem : oc.voxel_remesh
      { geo := (applyStagesLoop oc { obj := obj, reports := [] }).obj.data.geo,
        remesh_voxel_size := v } with e | g <;>
    simp [apply_bsphere_modifiers_execute, hobj, hrem]

/-! ### Witnesses -/

/-- Witness for C2: on the freshly created full-stack object the amended
panel theorem yields, concretely, that the Finalize button is rendered. -/
theorem c2_panel_rendering_amended_witness :
    Control.opButton "tcg.apply_bsphere_modifiers" "Voxel Remesh & Apply" none
      ∈ (panel_draw fullStackContext).2 :=
  (c2_panel_rendering_amended fullStackContext fullStackObject rfl rfl).2.2.2.2.2.2.2.2.mpr
    (by decide)

/-- Witness for C3: with the full creation-time stack and an oracle whose
Skin bake raises, the loop ends with only the Skin stage left and the
per-stage warning recorded. -/
theorem c3_finalizer_stage_isolation_witness :
    applyStagesLoop skinFailOracle { obj := fullStackObject, reports := [] }
      = { obj := { name := "bSphere", otype := "MESH", data := bSphereBaseMesh,
                   modifiers := [{ name := "Skin", data := .skin false false false }] },
          reports := [{ level := "WARNING", msg := "Could not apply modifier: Skin" }] } :=
  (c3_finalizer_stage_isolation skinFailOracle [] fullStackObject
      { name := "Mirror", data := .mirror true false false }
      { name := "Skin", data := .skin false false false }
      { name := "Subdivision", data := .subsurf 2 2 }
      bSphereBaseMesh.geo bSphereBaseMesh.geo "invalid topology"
      rfl rfl rfl rfl rfl rfl rfl).1

/-- Witness for C4: with the full creation-time stack, every bake
succeeding and a successful remesh, the run empties the stack, writes the
default voxel size into the mesh and reports the informational success. -/
theorem c4_finalize_success_postcondition_witness :
    apply_bsphere_modifiers_execute allOkOracle voxel_size_default fullStackContext
      = some ({ object := some { name := "bSphere", otype := "MESH",
                                 data := { geo := bSphereBaseMesh.geo,
                                           remesh_voxel_size := voxel_size_default },
                                 modifiers := [] },
                mode := "OBJECT", space_type := "VIEW_3D", show_xray := false },
              [{ level := "INFO", msg := "bSphere mesh applied and remeshed." }],
              OpResult.FINISHED) :=
  (c4_finalize_success_postcondition allOkOracle fullStackContext fullStackObject
      voxel_size_default
      { name := "Mirror", data := .mirror true false false }
      { name := "Skin", data := .skin false false false }
      { name := "Subdivision", data := .subsurf 2 2 }
      bSphereBaseMesh.geo bSphereBaseMesh.geo bSphereBaseMesh.geo
      rfl rfl rfl rfl rfl rfl rfl rfl).1 bSphereBaseMesh.geo rfl

/-- Witness for C5: with a remesh that raises, the run keeps the baked
geometry, reports the ERROR with the host's message and returns FINISHED. -/
theorem c5_remesh_failure_keeps_baked_geometry_witness :
    apply_bsphere_modifiers_execute remeshFailOracle voxel_size_default fullStackContext
      = some ({ object := some { name := "bSphere", otype := "MESH",
                                 data := { geo := bSphereBaseMesh.geo,
                                           remesh_voxel_size := voxel_size_default },
                                 modifiers := [] },
                mode := "OBJECT", space_type := "VIEW_3D", show_xray := false },
              [{ level := "ERROR", msg := "Remesh failed: voxel size too small" }],
              OpResult.FINISHED) :=
  c5_remesh_failure_keeps_baked_geometry remeshFailOracle voxel_size_default
    fullStackContext fullStackObject "voxel size too small" rfl rfl

/-- Witness for C9: even with every bake and the remesh raising, the run
returns FINISHED. -/
theorem c9_finalizer_always_finished_witness :
    ((apply_bsphere_modifiers_execute allFailOracle voxel_size_default fullStackContext).map
        (fun r => r.2.2)) = some OpResult.FINISHED :=
  c9_finalizer_always_finished allFailOracle voxel_size_default fullStackContext
    fullStackObject rfl

/-- Witness for C10: even with every bake and the remesh raising, the mesh
of the resulting active object carries exactly the supplied voxel size. -/
theorem c10_voxel_size_write_persists_witness :
    ((apply_bsphere_modifiers_execute allFailOracle voxel_size_default fullStackContext).map
        (fun r => r.1.object.map (fun o => o.data.remesh_voxel_size)))
      = some (some voxel_size_default) :=
  c10_voxel_size_write_persists allFailOracle voxel_size_default fullStackContext
    fullStackObject rfl

end BSpheres
